import Mathlib

/-!
# Verification of the skill-extraction and gap-analysis engine

Shallow embedding of the core services of the `Error_404` career-skill
platform (`app/services/skill_extractor.py`, `app/services/gap_analyzer.py`,
`app/services/llm_skill_extractor.py`), together with theorems settling the
frozen specification claims.

Modelling conventions:
* Python floats are modelled as exact rationals (`ℚ`); the heuristic scores in
  this code are small decimal constants, and every concrete value appearing in
  the claims is reproduced exactly by rational arithmetic.
* Python's `round(x, n)` (banker's rounding, ties to even) is modelled by
  `pyRoundInt` / `round1` / `round2`.
* Python `dict`s are modelled as association lists in insertion order; `dict`
  access `d.get(k, default)` becomes `List.lookup` with a default.
* Python strings are `String`; `str.lower`/`str.upper`/`in`/`strip` are
  modelled character-wise (the data handled by this program is ASCII).
-/

/-! ## Python-style rounding -/
/-- Python's `round` to an integer: nearest integer, ties to even. -/
def pyRoundInt (q : ℚ) : ℤ :=
  if q - (⌊q⌋ : ℚ) < 1/2 then ⌊q⌋
  else if 1/2 < q - (⌊q⌋ : ℚ) then ⌊q⌋ + 1
  else if ⌊q⌋ % 2 = 0 then ⌊q⌋ else ⌊q⌋ + 1

/-- Python's `round(x, 1)`. -/
def round1 (q : ℚ) : ℚ := (pyRoundInt (10 * q) : ℚ) / 10

/-- Python's `round(x, 2)`. -/
def round2 (q : ℚ) : ℚ := (pyRoundInt (100 * q) : ℚ) / 100

/-! ## String helpers (Python `str` operations, ASCII data) -/
/-- `needle` is a prefix of `hay` (character lists). -/
def startsWithChars : List Char → List Char → Bool
  | [], _ => true
  | _ :: _, [] => false
  | a :: as, b :: bs => a == b && startsWithChars as bs

/-- Python's `needle in hay` substring test, on character lists. -/
def hasSubChars (needle : List Char) : List Char → Bool
  | [] => needle.isEmpty
  | c :: cs => startsWithChars needle (c :: cs) || hasSubChars needle cs

/-- Python's `needle in hay` substring test on strings. -/
def strHasSub (hay needle : String) : Bool := hasSubChars needle.data hay.data

/-- Python's `str.lower` (ASCII). -/
def lowerStr (s : String) : String := ⟨s.data.map Char.toLower⟩

/-- Python's `str.upper` (ASCII). -/
def upperStr (s : String) : String := ⟨s.data.map Char.toUpper⟩

/-- Python's whitespace class for `str.strip` / regex `\s` (ASCII part). -/
def isPySpace (c : Char) : Bool :=
  c == ' ' || c == '\t' || c == '\n' || c == '\r' || c == '\x0b' || c == '\x0c'

/-- Python's `str.strip()` on character lists. -/
def stripChars (l : List Char) : List Char :=
  ((l.dropWhile isPySpace).reverse.dropWhile isPySpace).reverse

/-- Python's `str.strip()`. -/
def stripStr (s : String) : String := ⟨stripChars s.data⟩

/-- `any(term in s for term in terms)`. -/
def anyTermSub (terms : List String) (s : String) : Bool :=
  terms.any (fun t => strHasSub s t)

/-! ## Proficiency Estimator: `SkillExtractor.calculate_proficiency_from_course`

Source record for one course row; Python reads the fields with
`course_data.get(key, '')`, so a missing field is the empty string. -/
structure Course where
  grade : String
  platform : String
  course_name : String
  description : String

/-- `SkillExtractor.calculate_proficiency_from_course(skill, course_data)`.
The `skill` argument mirrors the Python signature; the Python body never
reads it. -/
def calculate_proficiency_from_course (skill : String) (course_data : Course) : ℚ × ℚ :=
  let base1 : ℚ := 0.5
  let conf1 : ℚ := 0.7
  let grade := upperStr course_data.grade
  let bc2 : ℚ × ℚ :=
    if grade ∈ ["A+", "A"] then (base1 + 0.15, conf1 + 0.1)
    else if grade ∈ ["A-", "B+"] then (base1 + 0.10, conf1)
    else if grade ∈ ["B", "B-"] then (base1 + 0.05, conf1)
    else (base1, conf1)
  let platform := lowerStr course_data.platform
  let bc3 : ℚ × ℚ :=
    if platform ∈ ["coursera", "edx", "mit", "stanford", "udacity", "google", "microsoft", "aws"]
    then (bc2.1 + 0.05, bc2.2 + 0.05) else bc2
  let text := lowerStr (course_data.course_name ++ " " ++ course_data.description)
  let base4 : ℚ :=
    if strHasSub text "advanced" || strHasSub text "expert" then bc3.1 + 0.10
    else if strHasSub text "intermediate" then bc3.1 + 0.05
    else bc3.1
  let proficiency := min base4 0.70
  let confidence := min bc3.2 0.85
  (round2 proficiency, round2 confidence)

/-! ## Proficiency Estimator: `SkillExtractor.calculate_proficiency_from_project` -/
structure Project where
  description : String
  role : String
  github_link : String
  deployed_link : String

/-- The `complexity_terms` table, in source order. -/
def complexity_terms : List (String × ℚ) :=
  [("deployed", 0.15), ("production", 0.15), ("scalable", 0.10), ("large-scale", 0.10),
   ("complex", 0.10), ("advanced", 0.10), ("optimized", 0.08), ("improved", 0.08),
   ("integrated", 0.05), ("api", 0.05), ("real-time", 0.08), ("machine learning", 0.10),
   ("ai", 0.08)]

/-- `SkillExtractor.calculate_proficiency_from_project(skill, project_data)`.
The `skill` argument mirrors the Python signature; the Python body never
reads it.  A link field is "truthy" in Python iff it is a non-empty string. -/
def calculate_proficiency_from_project (skill : String) (project_data : Project) : ℚ × ℚ :=
  let description := lowerStr project_data.description
  let bc1 : ℚ × ℚ := complexity_terms.foldl
    (fun bc tb => if strHasSub description tb.1 then (bc.1 + tb.2, bc.2 + 0.02) else bc)
    (0.60, 0.75)
  let role := lowerStr project_data.role
  let bc2 : ℚ × ℚ :=
    if strHasSub role "lead" || strHasSub role "architect" then (bc1.1 + 0.10, bc1.2 + 0.05)
    else if strHasSub role "solo" then (bc1.1 + 0.05, bc1.2)
    else bc1
  let bc3 : ℚ × ℚ :=
    if project_data.github_link ≠ "" then (bc2.1 + 0.05, bc2.2 + 0.03) else bc2
  let bc4 : ℚ × ℚ :=
    if project_data.deployed_link ≠ "" then (bc3.1 + 0.10, bc3.2 + 0.05) else bc3
  let proficiency := min bc4.1 0.90
  let confidence := min bc4.2 0.92
  (round2 proficiency, round2 confidence)

/-! ## Proficiency Estimator: `SkillExtractor.calculate_proficiency_from_experience` -/
structure WorkExperience where
  job_title : String
  description : String
  employment_type : String

/-- `SkillExtractor.calculate_proficiency_from_experience(skill, exp_data)`.
The `skill` argument mirrors the Python signature; the Python body never
reads it. -/
def calculate_proficiency_from_experience (skill : String) (exp_data : WorkExperience) : ℚ × ℚ :=
  let description := lowerStr exp_data.description
  let job_title := lowerStr exp_data.job_title
  let bc1 : ℚ × ℚ :=
    if anyTermSub ["senior", "lead", "principal", "staff", "director"] job_title
    then (0.65 + 0.15, 0.80 + 0.10)
    else if anyTermSub ["junior", "intern", "trainee"] job_title then (0.65 - 0.10, 0.80)
    else (0.65, 0.80)
  let emp_type := lowerStr exp_data.employment_type
  let bc2 : ℚ × ℚ :=
    if emp_type = "internship" then (bc1.1 - 0.10, bc1.2)
    else if emp_type ∈ ["full-time", "contract"] then (bc1.1 + 0.05, bc1.2)
    else bc1
  let bc3 : ℚ × ℚ :=
    if anyTermSub ["led", "architected", "designed", "implemented", "built"] description
    then (bc2.1 + 0.10, bc2.2 + 0.05)
    else bc2
  let proficiency := min (max bc3.1 0.40) 0.95
  let confidence := min bc3.2 0.95
  (round2 proficiency, round2 confidence)

/-! ## Gap Analyzer (`app/services/gap_analyzer.py`)

`user_skills` is the dict `{skill: {proficiency, confidence}}`; the analyzer
only reads `proficiency`, so a user profile is modelled as an association
list from skill to proficiency.  `market_requirements` is the dict
`{skill: {frequency, requirement_level, avg_proficiency_needed}}` in
insertion order. -/
structure MarketData where
  frequency : ℚ
  requirement_level : String
  avg_proficiency_needed : ℚ
deriving DecidableEq

inductive GapPriority where
  | critical
  | important
  | emerging
  | strength
deriving DecidableEq

/-- One entry of the four output lists.  The `impact`/`advantage`
human-readable strings of the Python dict are presentation-only and carry no
data beyond the fields below; they are omitted. -/
structure GapInfo where
  skill : String
  user_proficiency : ℚ
  market_requirement : ℚ
  gap : ℚ
  market_frequency : ℚ
  requirement_level : String
  priority : GapPriority
deriving DecidableEq

/-- `user_skills.get(skill, {}).get('proficiency', 0.0)`. -/
def userProf (user_skills : List (String × ℚ)) (skill : String) : ℚ :=
  (user_skills.lookup skill).getD 0

/-- The `if/elif` classification chain of `analyze_gaps`, on the raw
(unrounded) gap size.  `none` is the silent fall-through. -/
def classify_gap (gap_size : ℚ) (requirement_level : String) : Option GapPriority :=
  if gap_size > 0.5 ∧ requirement_level = "critical" then some .critical
  else if gap_size > 0.3 ∧ requirement_level ∈ ["critical", "important"] then some .important
  else if requirement_level = "emerging" ∧ gap_size > 0 then some .emerging
  else if gap_size ≤ 0 then some .strength
  else none

/-- The `gap_info` dict built for one market skill. -/
def mkGapInfo (user_skills : List (String × ℚ)) (skill : String) (md : MarketData)
    (pr : GapPriority) : GapInfo :=
  { skill := skill
    user_proficiency := round2 (userProf user_skills skill)
    market_requirement := round2 md.avg_proficiency_needed
    gap := round2 (md.avg_proficiency_needed - userProf user_skills skill)
    market_frequency := md.frequency
    requirement_level := md.requirement_level
    priority := pr }

/-- The single pass over `market_requirements.items()`, restricted to the
entries the `if/elif` chain sends to bucket `pr`; each bucket receives its
entries in market iteration order, exactly as the Python `append`s do. -/
def bucketPass (user_skills : List (String × ℚ)) (market : List (String × MarketData))
    (pr : GapPriority) : List GapInfo :=
  market.filterMap (fun e =>
    if classify_gap (e.2.avg_proficiency_needed - userProf user_skills e.1)
        e.2.requirement_level = some pr
    then some (mkGapInfo user_skills e.1 e.2 pr) else none)

/-- Stable insert for descending sort on the (rounded) `gap` field. -/
def insertGapDesc (g : GapInfo) : List GapInfo → List GapInfo
  | [] => [g]
  | h :: t => if h.gap < g.gap then g :: h :: t else h :: insertGapDesc g t

/-- `list.sort(key=lambda x: x['gap'], reverse=True)`: stable descending sort
by the rounded `gap` field (Python's sort is stable; so is this insertion
sort). -/
def sortGapsDesc : List GapInfo → List GapInfo
  | [] => []
  | g :: t => insertGapDesc g (sortGapsDesc t)

/-- Per-skill weight used by `_calculate_readiness`. -/
def readinessWeight (md : MarketData) : ℚ :=
  let w := md.frequency
  if md.requirement_level = "critical" then w * 2.0
  else if md.requirement_level = "important" then w * 1.5
  else if md.requirement_level = "emerging" then w * 1.2
  else w

/-- Achievement ratio, capped at 1.0 (`1.0` when the market need is not
positive). -/
def achievementRatio (user_skills : List (String × ℚ)) (skill : String) (md : MarketData) : ℚ :=
  if md.avg_proficiency_needed > 0
  then min (userProf user_skills skill / md.avg_proficiency_needed) 1.0
  else 1.0

/-- `GapAnalyzer._calculate_readiness`. -/
def calculate_readiness (user_skills : List (String × ℚ))
    (market_requirements : List (String × MarketData)) : ℚ :=
  if market_requirements = [] then 0.0
  else
    let total_weight := (market_requirements.map (fun e => readinessWeight e.2)).sum
    let achieved_weight := (market_requirements.map
      (fun e => readinessWeight e.2 * achievementRatio user_skills e.1 e.2)).sum
    let readiness := if total_weight > 0 then achieved_weight / total_weight * 100 else 0
    round1 readiness

/-- `GapAnalyzer._interpret_readiness`. -/
def interpret_readiness (readiness : ℚ) : String :=
  if readiness ≥ 90 then "Excellent - Ready to apply immediately!"
  else if readiness ≥ 75 then "Good - Strong candidate with minor gaps"
  else if readiness ≥ 60 then "Fair - Nearly ready, 1-2 key gaps to address"
  else if readiness ≥ 45 then "Developing - Several important skills needed (3-4 months)"
  else "Early stage - Significant skill development needed (6+ months)"

structure GapSummary where
  total_gaps : ℕ
  critical_gap_count : ℕ
  important_gap_count : ℕ
  emerging_gap_count : ℕ
  strength_count : ℕ
  overall_readiness_pct : ℚ
  interpretation : String
  top_3_priorities : List String
deriving DecidableEq

structure GapAnalysisResult where
  critical_gaps : List GapInfo
  important_gaps : List GapInfo
  emerging_gaps : List GapInfo
  strengths : List GapInfo
  overall_readiness : ℚ
  summary : GapSummary
deriving DecidableEq

/-- `GapAnalyzer.analyze_gaps`. -/
def analyze_gaps (user_skills : List (String × ℚ))
    (market_requirements : List (String × MarketData)) : GapAnalysisResult :=
  let critical_gaps := sortGapsDesc (bucketPass user_skills market_requirements .critical)
  let important_gaps := sortGapsDesc (bucketPass user_skills market_requirements .important)
  let emerging_gaps := sortGapsDesc (bucketPass user_skills market_requirements .emerging)
  let strengths := bucketPass user_skills market_requirements .strength
  let readiness := calculate_readiness user_skills market_requirements
  { critical_gaps := critical_gaps
    important_gaps := important_gaps
    emerging_gaps := emerging_gaps
    strengths := strengths
    overall_readiness := readiness
    summary :=
      { total_gaps := critical_gaps.length + important_gaps.length + emerging_gaps.length
        critical_gap_count := critical_gaps.length
        important_gap_count := important_gaps.length
        emerging_gap_count := emerging_gaps.length
        strength_count := strengths.length
        overall_readiness_pct := readiness
        interpretation := interpret_readiness readiness
        top_3_priorities := (critical_gaps.take 3).map (fun g => g.skill) } }

/-- The four output lists, indexed by bucket. -/
def bucketListOf (r : GapAnalysisResult) : GapPriority → List GapInfo
  | .critical => r.critical_gaps
  | .important => r.important_gaps
  | .emerging => r.emerging_gaps
  | .strength => r.strengths

/-! ## Claim C2: the readiness formula -/
/-- The level multiplier as the spec states it:
critical 2.0, important 1.5, emerging 1.2, optional (anything else) 1.0. -/
def specLevelMultiplier (lvl : String) : ℚ :=
  if lvl = "critical" then 2.0
  else if lvl = "important" then 1.5
  else if lvl = "emerging" then 1.2
  else 1.0

/-! ## Claim C4: the course proficiency formula -/
/-- Grade bonus as the claim states it. -/
def specCourseGradeBoost (grade : String) : ℚ :=
  if upperStr grade ∈ ["A+", "A"] then 0.15
  else if upperStr grade ∈ ["A-", "B+"] then 0.10
  else if upperStr grade ∈ ["B", "B-"] then 0.05
  else 0

/-- Platform bonus as the claim states it. -/
def specCoursePlatformBoost (platform : String) : ℚ :=
  if lowerStr platform ∈ ["coursera", "edx", "mit", "stanford", "udacity", "google",
      "microsoft", "aws"] then 0.05 else 0

/-- Level-keyword bonus exactly as the claim words it: `+0.10` for an
`advanced` keyword, `+0.05` for `intermediate` — the claim does not mention
the `expert` keyword the code also rewards. -/
def specCourseLevelBoost (c : Course) : ℚ :=
  if strHasSub (lowerStr (c.course_name ++ " " ++ c.description)) "advanced" then 0.10
  else if strHasSub (lowerStr (c.course_name ++ " " ++ c.description)) "intermediate" then 0.05
  else 0

/-- Course proficiency formula as claim C4 states it. -/
def specCourseProficiency (c : Course) : ℚ :=
  min (0.50 + specCourseGradeBoost c.grade + specCoursePlatformBoost c.platform +
    specCourseLevelBoost c) 0.70

/-- Level-keyword bonus amended to what the code computes: `advanced` _or_
`expert` gives `+0.10`, else `intermediate` gives `+0.05`. -/
def specCourseLevelBoostAmended (c : Course) : ℚ :=
  if strHasSub (lowerStr (c.course_name ++ " " ++ c.description)) "advanced" ||
      strHasSub (lowerStr (c.course_name ++ " " ++ c.description)) "expert" then 0.10
  else if strHasSub (lowerStr (c.course_name ++ " " ++ c.description)) "intermediate" then 0.05
  else 0

/-- Course proficiency formula amended with the `expert` keyword. -/
def specCourseProficiencyAmended (c : Course) : ℚ :=
  min (0.50 + specCourseGradeBoost c.grade + specCoursePlatformBoost c.platform +
    specCourseLevelBoostAmended c) 0.70

/-! ## Skill Aggregator (`SkillExtractor.aggregate_skills`)

One element of the `skill_sources` list: a dict with `source`, `source_id`
and a `skills` map from skill to a `(proficiency, confidence)` pair. -/
structure SkillSource where
  source : String
  source_id : Int
  skills : List (String × ℚ × ℚ)

/-- One collected observation for a skill (the parallel `proficiencies`,
`confidences`, `sources`, `source_types` lists of the Python `defaultdict`,
zipped). -/
structure Obs where
  proficiency : ℚ
  confidence : ℚ
  sourceLabel : String
  sourceType : String
deriving DecidableEq

/-- Appending one observation to the `defaultdict` entry of `sk` (a fresh
entry is created at the end, matching dict insertion order). -/
def insertObs : List (String × List Obs) → String → Obs → List (String × List Obs)
  | [], sk, o => [(sk, [o])]
  | (k, os) :: t, sk, o =>
    if k = sk then (k, os ++ [o]) :: t else (k, os) :: insertObs t sk o

/-- The collection pass of `aggregate_skills`: walk all sources and group
their observations by skill. -/
def collectObs (skill_sources : List SkillSource) : List (String × List Obs) :=
  skill_sources.foldl (fun acc sd =>
    sd.skills.foldl (fun acc2 e =>
      insertObs acc2 e.1
        ⟨e.2.1, e.2.2, sd.source ++ ":" ++ toString sd.source_id, sd.source⟩) acc) []

/-- `source_weights.get(source_type, 1.0)`. -/
def source_weights_get (st : String) : ℚ :=
  if st = "experience" then 2.0
  else if st = "project" then 1.5
  else if st = "certification" then 1.2
  else if st = "course" then 1.0
  else if st = "resume" then 1.3
  else if st = "unknown" then 1.0
  else 1.0

structure AggRecord where
  proficiency : ℚ
  confidence : ℚ
  source_count : ℕ
  sources : List String
deriving DecidableEq

/-- The per-skill aggregation body of `aggregate_skills`. -/
def aggregateEntry (obs : List Obs) : AggRecord :=
  let total_weight := (obs.map (fun o => source_weights_get o.sourceType)).sum
  let weighted_prof :=
    (obs.map (fun o => o.proficiency * source_weights_get o.sourceType)).sum / total_weight
  let source_count := obs.length
  let frequency_boost := min ((source_count : ℚ) * 0.05) 0.15
  let final_proficiency := min (weighted_prof + frequency_boost) 1.0
  let avg_confidence := (obs.map (fun o => o.confidence)).sum / (source_count : ℚ)
  let count_boost := min ((source_count : ℚ) * 0.1) 0.2
  let final_confidence := min (avg_confidence + count_boost) 0.95
  { proficiency := round2 final_proficiency
    confidence := round2 final_confidence
    source_count := source_count
    sources := obs.map (fun o => o.sourceLabel) }

/-- `SkillExtractor.aggregate_skills`. -/
def aggregate_skills (skill_sources : List SkillSource) : List (String × AggRecord) :=
  (collectObs skill_sources).map (fun e => (e.1, aggregateEntry e.2))

/-! ## Claim C3: the aggregation formula -/
/-- Source-type weights as the claim states them (default 1.0 for unknown
kinds). -/
def specSourceWeight (st : String) : ℚ :=
  if st = "experience" then 2.0
  else if st = "project" then 1.5
  else if st = "resume" then 1.3
  else if st = "certification" then 1.2
  else if st = "course" then 1.0
  else 1.0

/-- The spec's `sql` aggregation example: one `course` observation and one
`experience` observation. -/
def sqlExampleSources : List SkillSource :=
  [⟨"course", 1, [("sql", 0.6, 0.7)]⟩, ⟨"experience", 2, [("sql", 0.8, 0.85)]⟩]

/-- The observation list `collectObs` builds for `sql` in that example. -/
def sqlExampleObs : List Obs :=
  [⟨0.6, 0.7, "course" ++ ":" ++ toString (1 : Int), "course"⟩,
   ⟨0.8, 0.85, "experience" ++ ":" ++ toString (2 : Int), "experience"⟩]

/-- Sources for the C9 witness: one course observation of `sql` at `0.6`. -/
def monoExampleSources : List SkillSource := [⟨"course", 1, [("sql", 0.6, 0.7)]⟩]

/-- The observation list `collectObs` builds for `sql` in the C9 witness. -/
def monoExampleObs : List Obs := [⟨0.6, 0.7, "course" ++ ":" ++ toString (1 : Int), "course"⟩]

/-! ## Skill Matcher (`SkillExtractor._compile_skill_patterns` /
`extract_skills_from_text`)

The compiled pattern for a skill is `\b` + `flexible` + `\b` where `flexible`
is `re.escape(skill.lower())` with `'\ '`, `'\-'` and `'\.'` each replaced by
the character class `[\s\-_.]?`.  The three `str.replace` calls run in
sequence, so the class inserted for a **space** is itself hit by the
subsequent `'\-'` replacement, producing the corrupted fragment
`[\s[\s\-_.]?_.]?` — a class `[\s[\s\-_.]` (whitespace, `[`, `-`, `_`, `.`)
made optional, followed by a literal `_`, a `.` (any character but newline)
and an optional literal `]`.  Classes inserted for `-` and `.` are not
re-scanned and stay intact.  All other characters are literal (escaping
keeps `+`, `#`, `&`, `/`, … literal, so the `re.error` fallback never
triggers).  A pattern is modelled as a token list with exactly these five
token kinds. -/
/-- Regex `\w` (ASCII part — the data this program matches is ASCII). -/
def isWordCh (c : Char) : Bool := c.isAlphanum || c == '_'

/-- The class `[\s\-_.]` of the intact flexible separator. -/
def isSepClassCh (c : Char) : Bool := isPySpace c || c == '-' || c == '_' || c == '.'

/-- The corrupted class `[\s[\s\-_.]`: whitespace, `[`, `-`, `_`, `.`. -/
def isCorrClassCh (c : Char) : Bool :=
  isPySpace c || c == '[' || c == '-' || c == '_' || c == '.'

inductive PatTok where
  /-- a literal character -/
  | lit (c : Char)
  /-- `[\s\-_.]?` -/
  | optSep
  /-- `[\s[\s\-_.]?` (the corrupted class, optional) -/
  | optCorr
  /-- `.` — any character except newline -/
  | anyCh
  /-- `c?` — an optional literal -/
  | optLit (c : Char)
deriving DecidableEq

/-- Token list of the compiled pattern for a skill (without the enclosing
`\b`s): space ↦ the corrupted fragment `[\s[\s\-_.]?_.]?`; `-` and `.` ↦ the
intact `[\s\-_.]?`; everything else literal. -/
def skillToks (skill : String) : List PatTok :=
  skill.data.foldr (fun c acc =>
    if c == ' ' then
      PatTok.optCorr :: PatTok.lit '_' :: PatTok.anyCh :: PatTok.optLit ']' :: acc
    else if c == '-' || c == '.' then PatTok.optSep :: acc
    else PatTok.lit c :: acc) []

/-- Token list for a synonym pattern `\b re.escape(syn) \b`: all literal. -/
def litToks (s : String) : List PatTok := s.data.map PatTok.lit

def isWordOpt : Option Char → Bool
  | none => false
  | some c => isWordCh c

def headIsWord : List Char → Bool
  | [] => false
  | c :: _ => isWordCh c

/-- Match a token list against a prefix of `rest`, then require a trailing
`\b`.  `prev` is the character just before the current position (none at the
start of the text); regex alternatives are explored existentially, which is
what a backtracking engine decides. -/
def matchToks : List PatTok → List Char → Option Char → Bool
  | [], rest, prev => isWordOpt prev != headIsWord rest
  | .lit c :: ts, rest, _ =>
    match rest with
    | [] => false
    | r :: rs => r == c && matchToks ts rs (some r)
  | .optSep :: ts, rest, prev =>
    matchToks ts rest prev ||
      (match rest with
       | [] => false
       | r :: rs => isSepClassCh r && matchToks ts rs (some r))
  | .optCorr :: ts, rest, prev =>
    matchToks ts rest prev ||
      (match rest with
       | [] => false
       | r :: rs => isCorrClassCh r && matchToks ts rs (some r))
  | .anyCh :: ts, rest, _ =>
    match rest with
    | [] => false
    | r :: rs => r != '\n' && matchToks ts rs (some r)
  | .optLit c :: ts, rest, prev =>
    matchToks ts rest prev ||
      (match rest with
       | [] => false
       | r :: rs => r == c && matchToks ts rs (some r))

/-- `re.search` of `\b toks \b` : try every start position with a leading
word boundary. -/
def searchToksFrom (toks : List PatTok) : List Char → Option Char → Bool
  | [], prev => (isWordOpt prev != false) && matchToks toks [] prev
  | c :: cs, prev =>
    ((isWordOpt prev != isWordCh c) && matchToks toks (c :: cs) prev) ||
      searchToksFrom toks cs (some c)

def regexSearch (toks : List PatTok) (text : List Char) : Bool :=
  searchToksFrom toks text none

/-! ### `clean_text` -/
/-- The separator class `[|•·▪►◦‣⁃]` of `clean_text`. -/
def isBulletSep (c : Char) : Bool :=
  c == '|' || c == '•' || c == '·' || c == '▪' || c == '►' || c == '◦' || c == '‣' || c == '⁃'

/-- `re.sub(r'\s+', ' ', text)`: collapse every whitespace run to one
space. -/
def collapseWsAux : Bool → List Char → List Char
  | _, [] => []
  | prevSpace, c :: cs =>
    if isPySpace c then
      if prevSpace then collapseWsAux true cs else ' ' :: collapseWsAux true cs
    else c :: collapseWsAux false cs

/-- `re.sub(r'[^\w\s\-+#./]', ' ', text)` on one character. -/
def keepImportantCh (c : Char) : Char :=
  if isWordCh c || isPySpace c || c == '-' || c == '+' || c == '#' || c == '.' || c == '/'
  then c else ' '

/-- `SkillExtractor.clean_text`. -/
def clean_text (text : String) : String :=
  if text = "" then ""
  else
    ⟨stripChars ((collapseWsAux false
      (text.data.map (fun c => if isBulletSep c then ' ' else c))).map keepImportantCh)⟩

/-! ### The hard-coded regex steps 3–6 of `extract_skills_from_text`

Each is a `\b(word|…)(tail)` pattern; `finditer` collects the `group(1)`
word of every non-overlapping match.  A word is collected iff the word-headed
pattern matches somewhere (matched spans are word + spaces + digits/dots, so
consumption never hides an occurrence of another alternative). -/
/-- Match `pat` as a literal sequence, then continue with `k` (which receives
the rest and the previous character). -/
def seqThen : List Char → List Char → Char → (List Char → Char → Bool) → Bool
  | [], rest, prev, k => k rest prev
  | _ :: _, [], _, _ => false
  | c :: cs, r :: rs, _, k => r == c && seqThen cs rs r k

/-- `\s*` then `f`, with backtracking. -/
def spacesThen (f : List Char → Char → Bool) : List Char → Char → Bool
  | rest, prev =>
    f rest prev ||
      (match rest with
       | [] => false
       | c :: cs => isPySpace c && spacesThen f cs c)

/-- `[\d.]*\b`, with backtracking. -/
def isDigitDot (c : Char) : Bool := c.isDigit || c == '.'

def moreDigitsBoundary : List Char → Char → Bool
  | rest, prev =>
    (isWordCh prev != headIsWord rest) ||
      (match rest with
       | [] => false
       | c :: cs => isDigitDot c && moreDigitsBoundary cs c)

/-- `[\d.]+\b`. -/
def digitsThenBoundary : List Char → Char → Bool
  | [], _ => false
  | c :: cs, _ => isDigitDot c && moreDigitsBoundary cs c

/-- `\w+\b` (at least one word character, then a boundary). -/
def moreWordBoundary : List Char → Char → Bool
  | rest, prev =>
    (isWordCh prev != headIsWord rest) ||
      (match rest with
       | [] => false
       | c :: cs => isWordCh c && moreWordBoundary cs c)

def wordThenBoundary : List Char → Char → Bool
  | [], _ => false
  | c :: cs, _ => isWordCh c && moreWordBoundary cs c

/-- Search `\b w tail` over all start positions. -/
def searchWordTail (w : List Char) (k : List Char → Char → Bool) :
    List Char → Option Char → Bool
  | [], _ => false
  | c :: cs, prev =>
    ((isWordOpt prev != isWordCh c) && seqThen w (c :: cs) ' ' k) ||
      searchWordTail w k cs (some c)

/-- `\s*[\d.]+\b` — the tail of the version pattern. -/
def versionTail : List Char → Char → Bool := spacesThen digitsThenBoundary

/-- `\s*[\d.]*\b` — the tail of the framework and database patterns. -/
def frameworkTail : List Char → Char → Bool := spacesThen moreDigitsBoundary

/-- `\s+\w+\b` — the tail of the cloud pattern. -/
def cloudTail : List Char → Char → Bool
  | [], _ => false
  | c :: cs, _ => isPySpace c && spacesThen wordThenBoundary cs c

/-- `google\s+cloud` followed by the cloud tail (continuation after
`google`). -/
def googleCloudAfter : List Char → Char → Bool
  | [], _ => false
  | c :: cs, _ =>
    isPySpace c &&
      spacesThen (fun r p => seqThen ("cloud".data) r p cloudTail) cs c

def versionWords : List String :=
  ["python", "java", "php", "ruby", "node", "go", "rust", "swift", "kotlin"]

def frameworkWords : List String :=
  ["react", "angular", "vue", "django", "flask", "spring", "rails", "laravel"]

def dbWords : List String :=
  ["mysql", "postgresql", "mongodb", "redis", "elasticsearch", "dynamodb", "cassandra", "sqlite"]

/-- Step 5: `\b(aws|azure|gcp|google\s+cloud)\s+\w+\b`; `google cloud` is
normalized to `gcp`. -/
def cloudFound (t : List Char) : List String :=
  (if searchWordTail "aws".data cloudTail t none then ["aws"] else []) ++
  (if searchWordTail "azure".data cloudTail t none then ["azure"] else []) ++
  (if searchWordTail "gcp".data cloudTail t none then ["gcp"] else []) ++
  (if searchWordTail "google".data googleCloudAfter t none then ["gcp"] else [])

/-! ### Steps 7–8 helpers -/
/-- `re.split` on a class of single characters (keeps empty pieces, like
`re.split`). -/
def splitAux (seps : List Char) : List Char → List Char → List (List Char)
  | [], acc => [acc.reverse]
  | c :: cs, acc =>
    if seps.contains c then acc.reverse :: splitAux seps cs []
    else splitAux seps cs (c :: acc)

def splitOnAny (seps : List Char) (l : List Char) : List (List Char) := splitAux seps l []

/-- The inner groups of `re.finditer(r'\(([^)]+)\)', text)`: left-to-right,
non-overlapping; `[^)]+` runs to the first `)` and must be non-empty; an
unclosed `(` matches nothing. -/
def parenAux : List Char → Option (List Char) → List (List Char)
  | [], _ => []
  | c :: cs, none => if c == '(' then parenAux cs (some []) else parenAux cs none
  | c :: cs, some acc =>
    if c == ')' then
      (if acc.isEmpty then parenAux cs none else acc.reverse :: parenAux cs none)
    else parenAux cs (some (c :: acc))

def parenGroups (t : List Char) : List (List Char) := parenAux t none

/-- `re.sub(r'\([^)]*\)', '', item)`: delete parenthesized runs; an unclosed
`(` (and what follows it) is kept verbatim. -/
def removeParensAux : List Char → Option (List Char) → List Char
  | [], none => []
  | [], some pend => '(' :: pend.reverse
  | c :: cs, none =>
    if c == '(' then removeParensAux cs (some []) else c :: removeParensAux cs none
  | c :: cs, some pend =>
    if c == ')' then removeParensAux cs none else removeParensAux cs (some (c :: pend))

/-- Step 7: items inside parentheses of the *original* text, split on
`[,;/]`, stripped and lowercased, looked up in the taxonomy / synonym map. -/
def parenItemsOf (skills : List String) (synMap : List (String × String))
    (t : List Char) : List String :=
  (parenGroups t).foldr (fun inner acc =>
    ((splitOnAny [',', ';', '/'] inner).foldr (fun raw acc2 =>
      (let itemStr : String := ⟨(stripChars raw).map Char.toLower⟩
       if skills.contains itemStr then [itemStr]
       else match synMap.lookup itemStr with
            | some canon => [canon]
            | none => []) ++ acc2) []) ++ acc) []

/-- The alternation bases of the step-8 keyword
`(?:skills?|technologies?|tools?|languages?|frameworks?|platforms?)`; each is
followed by a greedy optional `s`. -/
def step8KeyBases : List String :=
  ["skill", "technologie", "tool", "language", "framework", "platform"]

/-- If one of the keyword alternatives matches at the head of `l`, return the
rest after it (consuming the optional plural `s` greedily). -/
def keywordTailAux : List String → List Char → Option (List Char)
  | [], _ => none
  | b :: bs, l =>
    if startsWithChars b.data l then
      some (match l.drop b.data.length with
            | c :: rs => if c == 's' then rs else c :: rs
            | [] => [])
    else keywordTailAux bs l

/-- The captured `([^\n]+)` lines of the step-8 pattern, scanning left to
right without overlap.  After the keyword, `\s*[:\-]?\s*` is consumed
greedily; a match whose capture would be pure whitespace (possible only by
regex backtracking when the rest of the line is blank) contributes no items
— every such item is emptied by `strip()` and dropped by the length filter —
so it is treated as no match here.  The fuel argument (initially the text
length) only drives structural recursion; it never runs out because each
step consumes at least one character. -/
def step8Aux : Nat → List Char → List (List Char)
  | 0, _ => []
  | _, [] => []
  | fuel + 1, c :: cs =>
    match keywordTailAux step8KeyBases (c :: cs) with
    | none => step8Aux fuel cs
    | some rest1 =>
      let rest2 := rest1.dropWhile isPySpace
      let rest3 := match rest2 with
        | d :: ds => if d == ':' || d == '-' then ds else d :: ds
        | [] => []
      let rest4 := rest3.dropWhile isPySpace
      match rest4 with
      | [] => step8Aux fuel cs
      | d :: _ =>
        if d == '\n' then step8Aux fuel cs
        else (rest4.takeWhile (fun x => x != '\n')) ::
          step8Aux fuel (rest4.dropWhile (fun x => x != '\n'))

/-- Step 8: process one captured line: split on `[,;|•·]`, strip + lower,
delete parenthesized runs, re-strip; keep items of length in (1, 50); add the
item if it is a taxonomy skill, else its canonical if it is a synonym; then
(unconditionally) add the first taxonomy skill that contains or is contained
in the item.  The Python `for skill in self.skills_list` iterates a `set`
whose order is unspecified; the taxonomy in source order is used here. -/
def step8ItemsOfLine (skills : List String) (synMap : List (String × String))
    (line : List Char) : List String :=
  (splitOnAny [',', ';', '|', '•', '·'] line).foldr (fun raw acc =>
    (let item1 := (stripChars raw).map Char.toLower
     let item2 := stripChars (removeParensAux item1 none)
     let itemStr : String := ⟨item2⟩
     if 1 < item2.length ∧ item2.length < 50 then
       (if skills.contains itemStr then [itemStr]
        else match synMap.lookup itemStr with
             | some canon => [canon]
             | none => []) ++
       (match skills.find? (fun skill => strHasSub itemStr skill || strHasSub skill itemStr) with
        | some skill => [skill]
        | none => [])
     else []) ++ acc) []

def skillSectionItems (skills : List String) (synMap : List (String × String))
    (t : List Char) : List String :=
  ((step8Aux t.length t).map (step8ItemsOfLine skills synMap)).join

/-! ### `sorted(list(found_skills))` -/
/-- Python string `<`: lexicographic by code point. -/
def strLtChars : List Char → List Char → Bool
  | [], [] => false
  | [], _ :: _ => true
  | _ :: _, [] => false
  | a :: as, b :: bs =>
    if a.toNat < b.toNat then true
    else if b.toNat < a.toNat then false
    else strLtChars as bs

/-- Insert into a sorted duplicate-free list (the set + `sorted` of the
Python code). -/
def insertSortedUnique (s : String) : List String → List String
  | [] => [s]
  | t :: ts =>
    if strLtChars s.data t.data then s :: t :: ts
    else if s == t then t :: ts
    else t :: insertSortedUnique s ts

def sortedDedup (l : List String) : List String := l.foldr insertSortedUnique []

/-! ### The skill taxonomy

The union `TECHNICAL_SKILLS | SOFT_SKILLS` of `SkillExtractor`, in source
order with duplicates removed (Python sets deduplicate; their iteration
order is unspecified, and only the step-8 substring loop is sensitive to
it).  The reverse synonym map is built from `SKILL_SYNONYMS` exactly as
`__init__` does (no custom skills file). -/
def skills_list : List String := [
  "python", "java", "javascript", "typescript",
  "c++", "c#", "c", "ruby",
  "go", "golang", "rust", "swift",
  "kotlin", "scala", "php", "perl",
  "r", "matlab", "julia", "dart",
  "objective-c", "groovy", "lua", "haskell",
  "erlang", "elixir", "clojure", "f#",
  "assembly", "cobol", "fortran", "vba",
  "visual basic", "shell", "bash", "powershell",
  "html", "html5", "css", "css3",
  "sass", "scss", "less", "tailwind",
  "tailwindcss", "bootstrap", "jquery", "ajax",
  "json", "xml", "rest", "restful",
  "graphql", "soap", "websocket", "webrtc",
  "pwa", "spa", "ssr", "ssg",
  "react", "reactjs", "react.js", "angular",
  "angularjs", "vue", "vuejs", "vue.js",
  "svelte", "next.js", "nextjs", "nuxt",
  "nuxtjs", "gatsby", "ember", "backbone",
  "redux", "mobx", "vuex", "pinia",
  "zustand", "recoil", "node", "nodejs",
  "node.js", "express", "expressjs", "fastify",
  "nest", "nestjs", "django", "flask",
  "fastapi", "tornado", "pyramid", "bottle",
  "spring", "spring boot", "springboot", "hibernate",
  "struts", "rails", "ruby on rails", "sinatra",
  "laravel", "symfony", "codeigniter", "asp.net",
  ".net", ".net core", "dotnet", "gin",
  "echo", "fiber", "actix", "rocket",
  "sql", "mysql", "postgresql", "postgres",
  "sqlite", "oracle", "sql server", "mssql",
  "mariadb", "mongodb", "mongo", "cassandra",
  "couchdb", "couchbase", "redis", "memcached",
  "elasticsearch", "opensearch", "solr", "neo4j",
  "dynamodb", "firestore", "firebase", "supabase",
  "planetscale", "cockroachdb", "timescaledb", "influxdb",
  "clickhouse", "snowflake", "bigquery", "redshift",
  "athena", "presto", "trino", "hive",
  "hbase", "chromadb", "pinecone", "weaviate",
  "milvus", "qdrant", "faiss", "aws",
  "amazon web services", "azure", "microsoft azure", "gcp",
  "google cloud", "google cloud platform", "heroku", "digitalocean",
  "linode", "vultr", "cloudflare", "vercel",
  "netlify", "render", "railway", "fly.io",
  "oracle cloud", "ibm cloud", "alibaba cloud", "tencent cloud",
  "ec2", "s3", "lambda", "rds",
  "sqs", "sns", "cloudwatch", "cloudfront",
  "route53", "iam", "vpc", "ecs",
  "eks", "fargate", "elastic beanstalk", "sagemaker",
  "kinesis", "emr", "glue", "step functions",
  "api gateway", "cognito", "amplify", "azure functions",
  "azure devops", "azure storage", "cosmos db", "azure ml",
  "azure cognitive services", "azure kubernetes", "aks", "azure databricks",
  "cloud functions", "cloud run", "cloud storage", "bigtable",
  "pubsub", "dataflow", "dataproc", "vertex ai",
  "automl", "cloud composer", "gke", "docker",
  "kubernetes", "k8s", "openshift", "rancher",
  "helm", "istio", "linkerd", "terraform",
  "pulumi", "cloudformation", "ansible", "puppet",
  "chef", "saltstack", "vagrant", "packer",
  "consul", "vault", "nomad", "jenkins",
  "gitlab ci", "github actions", "circleci", "travis ci",
  "teamcity", "bamboo", "azure pipelines", "argo cd",
  "argocd", "flux", "spinnaker", "tekton",
  "git", "github", "gitlab", "bitbucket",
  "svn", "subversion", "mercurial", "junit",
  "pytest", "unittest", "mocha", "jest",
  "jasmine", "karma", "cypress", "selenium",
  "playwright", "puppeteer", "testng", "rspec",
  "minitest", "phpunit", "xunit", "nunit",
  "testing library", "enzyme", "vitest", "robot framework",
  "machine learning", "ml", "deep learning", "dl",
  "artificial intelligence", "ai", "neural networks", "natural language processing",
  "nlp", "computer vision", "cv", "reinforcement learning",
  "rl", "supervised learning", "unsupervised learning", "generative ai",
  "gen ai", "llm", "large language models", "transformers",
  "gpt", "bert", "llama", "rag",
  "retrieval augmented generation", "fine-tuning", "prompt engineering", "langchain",
  "llamaindex", "huggingface", "hugging face", "tensorflow",
  "pytorch", "keras", "scikit-learn", "sklearn",
  "xgboost", "lightgbm", "catboost", "prophet",
  "statsmodels", "mlflow", "kubeflow", "dvc",
  "weights & biases", "wandb", "optuna", "ray",
  "dask", "spark mllib", "h2o", "auto-sklearn",
  "autokeras", "fastai", "jax", "mxnet",
  "caffe", "onnx", "tensorrt", "triton",
  "pandas", "numpy", "scipy", "polars",
  "vaex", "modin", "cudf", "pyspark",
  "spark", "apache spark", "hadoop", "mapreduce",
  "flink", "kafka", "apache kafka", "airflow",
  "apache airflow", "luigi", "prefect", "dagster",
  "nifi", "beam", "matplotlib", "seaborn",
  "plotly", "bokeh", "d3", "d3.js",
  "chartjs", "chart.js", "highcharts", "echarts",
  "tableau", "power bi", "looker", "metabase",
  "superset", "grafana", "kibana", "streamlit",
  "gradio", "dash", "panel", "voila",
  "nltk", "spacy", "gensim", "textblob",
  "flair", "stanza", "corenlp", "fasttext",
  "word2vec", "glove", "elmo", "sentence transformers",
  "openai", "anthropic", "opencv", "cv2",
  "pillow", "pil", "imageio", "skimage",
  "scikit-image", "detectron", "yolo", "yolov5",
  "yolov8", "mmdetection", "albumentations", "imgaug",
  "big data", "data engineering", "data pipeline", "etl",
  "elt", "data warehouse", "data lake", "data lakehouse",
  "delta lake", "iceberg", "hudi", "dbt",
  "api", "rest api", "api development", "api design",
  "swagger", "openapi", "postman", "insomnia",
  "curl", "grpc", "protobuf", "thrift",
  "avro", "webhooks", "oauth", "oauth2",
  "jwt", "saml", "sso", "ldap",
  "active directory", "rabbitmq", "activemq", "zeromq",
  "celery", "rq", "bull", "sidekiq",
  "aws sqs", "azure service bus", "google pubsub", "prometheus",
  "datadog", "new relic", "splunk", "elk",
  "elastic stack", "logstash", "fluentd", "fluent bit",
  "jaeger", "zipkin", "opentelemetry", "sentry",
  "pagerduty", "opsgenie", "nagios", "zabbix",
  "stackdriver", "security", "cybersecurity", "penetration testing",
  "pen testing", "ethical hacking", "vulnerability assessment", "owasp",
  "encryption", "ssl", "tls", "https",
  "firewall", "waf", "ids", "ips",
  "siem", "soar", "devsecops", "secrets management",
  "android", "ios", "react native", "flutter",
  "xamarin", "ionic", "cordova", "phonegap",
  "swiftui", "android studio", "xcode", "expo",
  "unity", "unreal engine", "unreal", "godot",
  "pygame", "phaser", "cocos2d", "game development",
  "gamedev", "3d modeling", "blender", "electron",
  "tauri", "qt", "pyqt", "tkinter",
  "wxpython", "gtk", "wpf", "winforms",
  "embedded", "embedded systems", "iot", "internet of things",
  "arduino", "raspberry pi", "esp32", "esp8266",
  "stm32", "rtos", "freertos", "micropython",
  "circuitpython", "blockchain", "solidity", "ethereum",
  "smart contracts", "web3", "web3.js", "ethers.js",
  "hardhat", "truffle", "ganache", "metamask",
  "defi", "nft", "low-code", "no-code",
  "zapier", "make", "integromat", "airtable",
  "notion", "retool", "appsmith", "bubble",
  "webflow", "wordpress", "agile", "scrum",
  "kanban", "lean", "waterfall", "devops",
  "mlops", "dataops", "gitops", "ci/cd",
  "tdd", "bdd", "ddd", "microservices",
  "monolith", "serverless", "event-driven", "cqrs",
  "event sourcing", "system design", "software architecture", "solution architecture",
  "enterprise architecture", "design patterns", "solid", "dry",
  "kiss", "yagni", "clean code", "clean architecture",
  "hexagonal architecture", "onion architecture", "mvc", "mvvm",
  "mvp", "linux", "unix", "ubuntu",
  "debian", "centos", "rhel", "fedora",
  "arch linux", "windows", "macos", "windows server",
  "networking", "tcp/ip", "tcp", "udp",
  "http", "dns", "dhcp", "vpn",
  "load balancing", "nginx", "apache", "haproxy",
  "traefik", "caddy", "envoy", "excel",
  "microsoft excel", "google sheets", "powerpoint", "word",
  "google docs", "jira", "confluence", "trello",
  "asana", "monday.com", "slack", "microsoft teams",
  "zoom", "figma", "sketch", "adobe xd",
  "invision", "hl7", "fhir", "dicom",
  "icd-10", "snomed", "epic", "cerner",
  "meditech", "healthcare analytics", "clinical data", "ehr",
  "hipaa", "phi", "medical imaging", "radiology",
  "pathology", "genomics", "bioinformatics", "financial modeling",
  "quantitative analysis", "risk management", "trading", "algorithmic trading",
  "fintech", "payment systems", "banking", "insurance",
  "gis", "arcgis", "qgis", "geospatial",
  "mapping", "cartography", "gdal", "ogr",
  "leaflet", "mapbox", "google maps", "openstreetmap",
  "postgis", "geopandas", "satellite imagery", "remote sensing",
  "ndvi", "data analysis", "data analytics", "business intelligence",
  "bi", "reporting", "dashboards", "kpis",
  "metrics", "statistics", "statistical analysis", "predictive analytics",
  "prescriptive analytics", "descriptive analytics", "a/b testing", "hypothesis testing",
  "regression", "classification", "clustering", "regex",
  "regular expressions", "latex", "markdown", "yaml",
  "toml", "ini", "cron", "scheduling",
  "automation", "scripting", "web scraping", "beautifulsoup",
  "scrapy", "leadership", "team leadership", "people management",
  "mentoring", "coaching", "team building", "delegation",
  "conflict resolution", "decision making", "strategic thinking", "strategic planning",
  "project management", "program management", "product management", "stakeholder management",
  "change management", "communication", "verbal communication", "written communication",
  "presentation", "public speaking", "storytelling", "active listening",
  "negotiation", "persuasion", "interpersonal skills", "cross-functional collaboration",
  "client communication", "technical writing", "documentation", "problem solving",
  "critical thinking", "analytical thinking", "logical thinking", "troubleshooting",
  "debugging", "root cause analysis", "creative thinking", "innovation",
  "research", "data-driven decision making", "attention to detail", "time management",
  "organizational skills", "multitasking", "prioritization", "deadline management",
  "self-motivated", "self-starter", "initiative", "proactive",
  "accountability", "reliability", "dependability", "work ethic",
  "professionalism", "integrity", "ethics", "teamwork",
  "collaboration", "team player", "cross-team collaboration", "remote collaboration",
  "distributed teams", "pair programming", "code review", "knowledge sharing",
  "peer feedback", "adaptability", "flexibility", "learning agility",
  "continuous learning", "growth mindset", "resilience", "stress management",
  "working under pressure", "fast-paced environment", "ambiguity tolerance", "customer service",
  "customer focus", "user empathy", "client relations", "customer success",
  "user experience", "ux thinking", "design thinking"
]

def synonym_map : List (String × String) := [
  ("js", "javascript"),
  ("ecmascript", "javascript"),
  ("es6", "javascript"),
  ("es2015", "javascript"),
  ("es2016", "javascript"),
  ("es2017", "javascript"),
  ("es2018", "javascript"),
  ("es2019", "javascript"),
  ("es2020", "javascript"),
  ("es2021", "javascript"),
  ("es2022", "javascript"),
  ("ts", "typescript"),
  ("py", "python"),
  ("python3", "python"),
  ("python2", "python"),
  ("k8s", "kubernetes"),
  ("kube", "kubernetes"),
  ("postgres", "postgresql"),
  ("psql", "postgresql"),
  ("pgsql", "postgresql"),
  ("mongo", "mongodb"),
  ("elastic", "elasticsearch"),
  ("es", "elasticsearch"),
  ("aws", "amazon web services"),
  ("gcp", "google cloud platform"),
  ("google cloud", "google cloud platform"),
  ("azure", "microsoft azure"),
  ("ml", "machine learning"),
  ("dl", "deep learning"),
  ("ai", "artificial intelligence"),
  ("nlp", "natural language processing"),
  ("cv", "computer vision"),
  ("ci", "continuous integration"),
  ("cd", "continuous deployment"),
  ("cicd", "ci/cd"),
  ("ci cd", "ci/cd"),
  ("ci-cd", "ci/cd"),
  ("reactjs", "react"),
  ("react.js", "react"),
  ("vuejs", "vue"),
  ("vue.js", "vue"),
  ("angularjs", "angular"),
  ("angular.js", "angular"),
  ("nodejs", "node"),
  ("node.js", "node"),
  ("expressjs", "express"),
  ("express.js", "express"),
  ("nextjs", "next.js"),
  ("next", "next.js"),
  ("sklearn", "scikit-learn"),
  ("scikit learn", "scikit-learn"),
  ("tf", "tensorflow"),
  ("torch", "pytorch"),
  ("dotnet", ".net"),
  ("dot net", ".net"),
  ("cpp", "c++"),
  ("cplusplus", "c++"),
  ("c plus plus", "c++"),
  ("csharp", "c#"),
  ("c sharp", "c#"),
  ("objc", "objective-c"),
  ("objective c", "objective-c"),
  ("vb", "visual basic"),
  ("vb.net", "visual basic"),
  ("vbnet", "visual basic"),
  ("llm", "large language models"),
  ("llms", "large language models"),
  ("rag", "retrieval augmented generation"),
  ("api", "application programming interface"),
  ("apis", "application programming interface"),
  ("ui", "user interface"),
  ("ux", "user experience"),
  ("ui ux", "ui/ux"),
  ("uiux", "ui/ux")
]

/-! ### `SkillExtractor.extract_skills_from_text` -/
/-- `SkillExtractor.extract_skills_from_text`, over the taxonomy above.
Step 1 tries each skill pattern on the cleaned and on the raw lowered text;
step 2 searches each synonym (word-bounded, literal) in the cleaned text;
steps 3–6 are the hard-coded version / framework / cloud / database
patterns; step 7 scans parentheses of the original text; step 8 scans
`skills:`-style section lines of the lowered text.  The result is the sorted
deduplicated union. -/
def extract_skills_from_text (text : String) : List String :=
  if text = "" then []
  else
    let text_lower := (lowerStr text).data
    let text_cleaned := (clean_text (lowerStr text)).data
    let step1 := skills_list.filter (fun skill =>
      regexSearch (skillToks skill) text_cleaned || regexSearch (skillToks skill) text_lower)
    let step2 := (synonym_map.filter
      (fun e => regexSearch (litToks e.1) text_cleaned)).map (fun e => e.2)
    let step3 := versionWords.filter
      (fun w => searchWordTail w.data versionTail text_cleaned none)
    let step4 := frameworkWords.filter
      (fun w => searchWordTail w.data frameworkTail text_cleaned none)
    let step5 := cloudFound text_cleaned
    let step6 := dbWords.filter
      (fun w => searchWordTail w.data frameworkTail text_cleaned none)
    let step7 := parenItemsOf skills_list synonym_map text.data
    let step8 := skillSectionItems skills_list synonym_map text_lower
    sortedDedup (step1 ++ step2 ++ step3 ++ step4 ++ step5 ++ step6 ++ step7 ++ step8)

/-! ## `LLMSkillExtractor.extract_skills_from_resume`

The Gemini call and the JSON post-processing of its response are external
I/O; they are modelled as an oracle `llm_response`.  The guards before the
call are the code under verification: no client → `[]`; empty or
shorter-than-50-characters (after `strip()`) text → `[]`. -/
def llm_extract_skills_from_resume (client_available : Bool)
    (llm_response : String → List String) (resume_text : String) : List String :=
  if !client_available then []
  else if resume_text = "" ∨ (stripStr resume_text).length < 50 then []
  else llm_response resume_text

/-! ## Fuzzy similarity (claim C5)

Modelled from the spec: the spec's Skill Matcher step 6 prescribes a
"normalized edit-distance similarity ratio" with threshold 0.88 (the
`difflib.SequenceMatcher.ratio` convention `2·M/(|a|+|b|)`, realized here
with `M` the longest common subsequence).  **No fuzzy matching exists in the
source**: `SequenceMatcher` is imported by `skill_extractor.py` but never
used, so this definition only serves to state the claim. -/
def lcsLenFuel : Nat → List Char → List Char → Nat
  | 0, _, _ => 0
  | _, [], _ => 0
  | _, _, [] => 0
  | f + 1, a :: as, b :: bs =>
    if a == b then 1 + lcsLenFuel f as bs
    else max (lcsLenFuel f (a :: as) bs) (lcsLenFuel f as (b :: bs))

def lcsLen (a b : List Char) : Nat := lcsLenFuel (a.length + b.length) a b

/-- `2·M/(|a|+|b|)` similarity (see above; modelled from the spec). -/
def simRatio (a b : String) : ℚ :=
  2 * (lcsLen a.data b.data : ℚ) / ((a.data.length : ℚ) + (b.data.length : ℚ))

/-- A single-word skill (no space in its canonical form). -/
def isSingleWord (s : String) : Bool := !(s.data.contains ' ')

/-- `str.split()` — the words of a text. -/
def textWords (s : String) : List String :=
  ((splitOnAny [' ', '\t', '\n', '\r', '\x0b', '\x0c'] s.data).filter
    (fun w => !w.isEmpty)).map (fun w => ⟨w⟩)

set_option maxRecDepth 10000

/-! ## Theorems -/

theorem pyRoundInt_intCast (n : ℤ) : pyRoundInt (n : ℚ) = n := by
  unfold pyRoundInt
  simp [Int.floor_intCast]

theorem pyRoundInt_cases (q : ℚ) : pyRoundInt q = ⌊q⌋ ∨ pyRoundInt q = ⌊q⌋ + 1 := by
  unfold pyRoundInt
  split_ifs <;> simp

theorem pyRoundInt_mono {x y : ℚ} (h : x ≤ y) : pyRoundInt x ≤ pyRoundInt y := by
  rcases lt_or_eq_of_le (Int.floor_le_floor h) with hf | hf
  · rcases pyRoundInt_cases x with hx | hx <;> rcases pyRoundInt_cases y with hy | hy <;>
      rw [hx, hy] <;> omega
  · unfold pyRoundInt
    rw [hf]
    have hxy : x - (⌊y⌋ : ℚ) ≤ y - (⌊y⌋ : ℚ) := by linarith
    split_ifs <;> first | omega | linarith

theorem round2_mono {x y : ℚ} (h : x ≤ y) : round2 x ≤ round2 y := by
  unfold round2
  have h1 := pyRoundInt_mono (x := 100 * x) (y := 100 * y) (by linarith)
  have h2 : ((pyRoundInt (100 * x) : ℤ) : ℚ) ≤ ((pyRoundInt (100 * y) : ℤ) : ℚ) := by
    exact_mod_cast h1
  linarith

/-! ## Supporting lemmas for the Gap Analyzer -/
theorem mem_insertGapDesc {g h : GapInfo} {l : List GapInfo} :
    g ∈ insertGapDesc h l ↔ g = h ∨ g ∈ l := by
  induction l with
  | nil => simp [insertGapDesc]
  | cons a t ih =>
    by_cases hc : a.gap < h.gap
    · simp [insertGapDesc, hc]
    · simp only [insertGapDesc, if_neg hc, List.mem_cons, ih]
      tauto

theorem mem_sortGapsDesc {g : GapInfo} {l : List GapInfo} :
    g ∈ sortGapsDesc l ↔ g ∈ l := by
  induction l with
  | nil => simp [sortGapsDesc]
  | cons a t ih => simp [sortGapsDesc, mem_insertGapDesc, ih]

theorem market_keys_nodup_val_eq {mkt : List (String × MarketData)}
    (hnd : (mkt.map Prod.fst).Nodup) {sk : String} {md md' : MarketData}
    (h1 : (sk, md) ∈ mkt) (h2 : (sk, md') ∈ mkt) : md = md' := by
  induction mkt with
  | nil => cases h1
  | cons p t ih =>
    rw [List.map_cons, List.nodup_cons] at hnd
    rcases List.mem_cons.mp h1 with he1 | ht1 <;> rcases List.mem_cons.mp h2 with he2 | ht2
    · rw [← he1] at he2; exact (Prod.mk.injEq _ _ _ _ ▸ he2).2.symm
    · exact absurd (List.mem_map.mpr ⟨(sk, md'), ht2, by rw [← he1]⟩) hnd.1
    · exact absurd (List.mem_map.mpr ⟨(sk, md), ht1, by rw [← he2]⟩) hnd.1
    · exact ih hnd.2 ht1 ht2

theorem bucketPass_mem_iff {us : List (String × ℚ)} {mkt : List (String × MarketData)}
    {pr : GapPriority} {sk : String} :
    (∃ g ∈ bucketPass us mkt pr, g.skill = sk) ↔
      ∃ p ∈ mkt, p.1 = sk ∧
        classify_gap (p.2.avg_proficiency_needed - userProf us p.1) p.2.requirement_level =
          some pr := by
  constructor
  · rintro ⟨g, hg, hsk⟩
    rw [bucketPass, List.mem_filterMap] at hg
    obtain ⟨p, hp, hite⟩ := hg
    by_cases hc : classify_gap (p.2.avg_proficiency_needed - userProf us p.1)
        p.2.requirement_level = some pr
    · rw [if_pos hc] at hite
      refine ⟨p, hp, ?_, hc⟩
      rw [← Option.some_inj.mp hite] at hsk
      exact hsk
    · rw [if_neg hc] at hite; cases hite
  · rintro ⟨p, hp, hpsk, hc⟩
    refine ⟨mkGapInfo us p.1 p.2 pr, ?_, hpsk⟩
    rw [bucketPass, List.mem_filterMap]
    exact ⟨p, hp, by rw [if_pos hc]⟩

/-- Claim C1: for every market skill, the bucket lists of `analyze_gaps` are
characterized by the first-match-wins `if/elif` chain `classify_gap` (so an
`important`-level skill with `0 < gap ≤ 0.3` lands in no bucket), and every
market skill appears in at most one of the four output lists. -/
theorem gap_bucket_classification (us : List (String × ℚ)) (mkt : List (String × MarketData))
    (hnd : (mkt.map Prod.fst).Nodup) (sk : String) (md : MarketData)
    (hmem : (sk, md) ∈ mkt) :
    (∀ pr : GapPriority,
      (∃ g ∈ bucketListOf (analyze_gaps us mkt) pr, g.skill = sk) ↔
        classify_gap (md.avg_proficiency_needed - userProf us sk) md.requirement_level =
          some pr) ∧
    (∀ q q' : GapPriority,
      (∃ g ∈ bucketListOf (analyze_gaps us mkt) q, g.skill = sk) →
      (∃ g ∈ bucketListOf (analyze_gaps us mkt) q', g.skill = sk) → q = q') := by
  have key : ∀ pr : GapPriority,
      (∃ g ∈ bucketPass us mkt pr, g.skill = sk) ↔
        classify_gap (md.avg_proficiency_needed - userProf us sk) md.requirement_level =
          some pr := by
    intro pr
    rw [bucketPass_mem_iff]
    constructor
    · rintro ⟨p, hp, hpsk, hc⟩
      obtain ⟨p1, p2⟩ := p
      dsimp only at hpsk hc
      subst hpsk
      rw [market_keys_nodup_val_eq hnd hmem hp]
      exact hc
    · intro hc
      exact ⟨(sk, md), hmem, rfl, hc⟩
  have hbuckets : ∀ pr : GapPriority,
      (∃ g ∈ bucketListOf (analyze_gaps us mkt) pr, g.skill = sk) ↔
        classify_gap (md.avg_proficiency_needed - userProf us sk) md.requirement_level =
          some pr := by
    intro pr
    cases pr <;>
      simp only [analyze_gaps, bucketListOf, mem_sortGapsDesc] <;>
      exact key _
  refine ⟨hbuckets, fun q q' hq hq' => ?_⟩
  have h1 := (hbuckets q).mp hq
  have h2 := (hbuckets q').mp hq'
  rw [h1] at h2
  exact Option.some_inj.mp h2

/-- Witness for C1: with market `{python: freq 0.85, critical, need 0.75}` and
an empty user profile, `python` lands in the CRITICAL bucket. -/
theorem gap_bucket_classification_witness :
    ∃ g ∈ bucketListOf
      (analyze_gaps [] [("python", ⟨0.85, "critical", 0.75⟩)]) GapPriority.critical,
      g.skill = "python" :=
  ((gap_bucket_classification [] [("python", ⟨0.85, "critical", 0.75⟩)]
      (by simp) "python" ⟨0.85, "critical", 0.75⟩
      (by simp)).1 GapPriority.critical).mpr (by with_unfolding_all decide)

theorem readinessWeight_eq (md : MarketData) :
    readinessWeight md = md.frequency * specLevelMultiplier md.requirement_level := by
  unfold readinessWeight specLevelMultiplier
  split_ifs <;> ring

theorem round1_hundred : round1 (100 : ℚ) = 100 := by with_unfolding_all decide

/-- Claim C2 (amended): provided the total weight is positive, overall
readiness equals `100 × Σ(weight × achievement) / Σ(weight)` rounded to one
decimal, with `weight = frequency × levelMultiplier`; and under the same
proviso a user profile meeting every `avg_proficiency_needed` scores exactly
`100.0`.  (When the total weight is `0` — e.g. every frequency is `0` — the
code returns `0.0` instead; see the counterexample.) -/
theorem readiness_weighted_formula (us : List (String × ℚ)) (mkt : List (String × MarketData))
    (hpos : 0 < (mkt.map (fun e => readinessWeight e.2)).sum) :
    calculate_readiness us mkt =
      round1 (100 *
        (mkt.map (fun e => e.2.frequency * specLevelMultiplier e.2.requirement_level *
          achievementRatio us e.1 e.2)).sum /
        (mkt.map (fun e => e.2.frequency * specLevelMultiplier e.2.requirement_level)).sum) ∧
    ((∀ p ∈ mkt, p.2.avg_proficiency_needed ≤ userProf us p.1) →
      calculate_readiness us mkt = 100) := by
  have hne : mkt ≠ [] := by
    intro h
    rw [h] at hpos
    simp at hpos
  have hw : mkt.map (fun e => readinessWeight e.2) =
      mkt.map (fun e => e.2.frequency * specLevelMultiplier e.2.requirement_level) :=
    List.map_congr_left (fun e _ => readinessWeight_eq e.2)
  have hwa : mkt.map (fun e => readinessWeight e.2 * achievementRatio us e.1 e.2) =
      mkt.map (fun e => e.2.frequency * specLevelMultiplier e.2.requirement_level *
        achievementRatio us e.1 e.2) :=
    List.map_congr_left (fun e _ => by rw [readinessWeight_eq e.2])
  constructor
  · rw [calculate_readiness, if_neg hne]
    simp only [if_pos hpos]
    rw [hw, hwa]
    congr 1
    ring
  · intro hall
    have hach : ∀ p ∈ mkt, achievementRatio us p.1 p.2 = 1 := by
      intro p hp
      unfold achievementRatio
      by_cases hn : p.2.avg_proficiency_needed > 0
      · rw [if_pos hn]
        have h1 : (1 : ℚ) ≤ userProf us p.1 / p.2.avg_proficiency_needed :=
          (one_le_div hn).mpr (hall p hp)
        have h10 : (1.0 : ℚ) = 1 := by norm_num
        rw [h10, min_eq_right h1]
      · rw [if_neg hn]
        norm_num
    have haw : mkt.map (fun e => readinessWeight e.2 * achievementRatio us e.1 e.2) =
        mkt.map (fun e => readinessWeight e.2) :=
      List.map_congr_left (fun e he => by rw [hach e he, mul_one])
    rw [calculate_readiness, if_neg hne]
    simp only [if_pos hpos]
    rw [haw, div_self (ne_of_gt hpos), one_mul, round1_hundred]

/-- Witness for C2 (amended): market `{python: freq 0.85, critical,
need 0.75}` and a user with python at `0.75` give readiness `100.0`. -/
theorem readiness_weighted_formula_witness :
    calculate_readiness [("python", 0.75)] [("python", ⟨0.85, "critical", 0.75⟩)] = 100 :=
  (readiness_weighted_formula [("python", 0.75)] [("python", ⟨0.85, "critical", 0.75⟩)]
    (by with_unfolding_all decide)).2 (by with_unfolding_all decide)

/-- Counterexample to C2 as stated: the non-empty market
`{x: frequency 0, critical, need 0.5}` with a user meeting the need (`0.5`)
yields readiness `0.0`, not `100.0` — the total weight is `0`, so the code
takes its `else 0` branch. -/
theorem readiness_boundary_cex :
    [("x", (⟨0, "critical", 0.5⟩ : MarketData))] ≠ [] ∧
    (∀ p ∈ [("x", (⟨0, "critical", 0.5⟩ : MarketData))],
      p.2.avg_proficiency_needed ≤ userProf [("x", 0.5)] p.1) ∧
    calculate_readiness [("x", 0.5)] [("x", ⟨0, "critical", 0.5⟩)] = 0 ∧
    (0 : ℚ) ≠ 100 := by
  refine ⟨by simp, ?_, by with_unfolding_all decide, by norm_num⟩
  intro p hp
  rw [List.mem_singleton] at hp
  rw [hp]
  with_unfolding_all decide

/-! ## Claim C8: empty-input safety -/
/-- Claim C8: `analyze_gaps` on an empty user profile and empty market
returns readiness `0.0` and four empty lists (and, being a total function,
neither raises nor divides by zero). -/
theorem empty_inputs_safe :
    (analyze_gaps [] []).overall_readiness = 0 ∧
    (analyze_gaps [] []).critical_gaps = [] ∧
    (analyze_gaps [] []).important_gaps = [] ∧
    (analyze_gaps [] []).emerging_gaps = [] ∧
    (analyze_gaps [] []).strengths = [] := by
  with_unfolding_all decide

/-- Counterexample to C4 as stated: a course whose name contains `expert`
(but not `advanced` or `intermediate`) gets `0.50 + 0.10 = 0.60` from the
code, while the claim's additive enumeration yields only the `0.50` base. -/
theorem course_formula_cex :
    (calculate_proficiency_from_course "sql" ⟨"", "", "Expert SQL Course", ""⟩).1 = 0.60 ∧
    specCourseProficiency ⟨"", "", "Expert SQL Course", ""⟩ = 0.50 ∧
    (0.60 : ℚ) ≠ 0.50 := by
  refine ⟨by with_unfolding_all decide, by with_unfolding_all decide, by norm_num⟩

/-- Claim C4 (amended): course proficiency is the base `0.50` plus the grade,
platform and level-keyword bonuses — where the level keyword is `advanced`
_or `expert`_ (+0.10), else `intermediate` (+0.05) — capped at `0.70`; and a
grade-A Coursera course with `Advanced` in its name yields exactly `0.70`
for every skill. -/
theorem course_formula (sk : String) (c : Course) :
    (calculate_proficiency_from_course sk c).1 = specCourseProficiencyAmended c ∧
    (∀ sk' : String,
      (calculate_proficiency_from_course sk'
        ⟨"A", "Coursera", "Advanced Machine Learning", ""⟩).1 = 0.70) := by
  constructor
  · simp only [calculate_proficiency_from_course, specCourseProficiencyAmended,
      specCourseGradeBoost, specCoursePlatformBoost, specCourseLevelBoostAmended]
    split_ifs <;> with_unfolding_all decide
  · intro sk'
    have h : calculate_proficiency_from_course sk'
        ⟨"A", "Coursera", "Advanced Machine Learning", ""⟩ =
        calculate_proficiency_from_course ""
        ⟨"A", "Coursera", "Advanced Machine Learning", ""⟩ := rfl
    rw [h]
    with_unfolding_all decide

/-! ## Claim C10: the estimators ignore their skill argument -/
/-- Claim C10: for a fixed course / project / work-experience record, the
per-source proficiency estimators return the identical (proficiency,
confidence) pair for every skill — the `skill` parameter is never read. -/
theorem estimators_ignore_skill :
    (∀ (s1 s2 : String) (c : Course),
      calculate_proficiency_from_course s1 c = calculate_proficiency_from_course s2 c) ∧
    (∀ (s1 s2 : String) (p : Project),
      calculate_proficiency_from_project s1 p = calculate_proficiency_from_project s2 p) ∧
    (∀ (s1 s2 : String) (e : WorkExperience),
      calculate_proficiency_from_experience s1 e = calculate_proficiency_from_experience s2 e) :=
  ⟨fun _ _ _ => rfl, fun _ _ _ => rfl, fun _ _ _ => rfl⟩

/-! ### Association-list lemmas for the aggregator -/
theorem lookup_map_aggregateEntry (l : List (String × List Obs)) (sk : String) :
    (l.map (fun e => (e.1, aggregateEntry e.2))).lookup sk = (l.lookup sk).map aggregateEntry := by
  induction l with
  | nil => rfl
  | cons e t ih =>
    by_cases h : sk == e.1
    · simp [List.lookup, h]
    · simp [List.lookup, h, ih]

theorem lookup_insertObs_some {acc : List (String × List Obs)} {sk : String} {obs : List Obs}
    (o : Obs) (h : acc.lookup sk = some obs) :
    (insertObs acc sk o).lookup sk = some (obs ++ [o]) := by
  induction acc with
  | nil => simp [List.lookup] at h
  | cons e t ih =>
    obtain ⟨k, os⟩ := e
    by_cases hk : k = sk
    · subst hk
      simp [List.lookup] at h
      simp [insertObs, List.lookup, h]
    · have hne : (sk == k) = false := by
        simp [beq_eq_false_iff_ne]
        exact fun he => hk he.symm
      simp [List.lookup, hne] at h
      simp [insertObs, hk, List.lookup, hne, ih h]

theorem collectObs_append_single (srcs : List SkillSource) (st : String) (i : Int)
    (sk : String) (p c : ℚ) :
    collectObs (srcs ++ [⟨st, i, [(sk, p, c)]⟩]) =
      insertObs (collectObs srcs) sk ⟨p, c, st ++ ":" ++ toString i, st⟩ := by
  unfold collectObs
  rw [List.foldl_append]
  simp only [List.foldl_cons, List.foldl_nil]

theorem specSourceWeight_eq (st : String) : specSourceWeight st = source_weights_get st := by
  unfold specSourceWeight source_weights_get
  split_ifs <;> simp_all

/-- Counterexample to C3 as stated: for `sql` observed once via `course`
(prof 0.6) and once via `experience` (prof 0.8), the stored aggregated
proficiency is `round((0.6×1.0+0.8×2.0)/3.0 + 0.10, 2) = 0.83` — the claim's
formula (no final rounding) gives `5/6 ≈ 0.8333`, and the claim's stated
value `0.833` is not the code's output either. -/
theorem aggregate_example_cex :
    ((aggregate_skills
        [⟨"course", 1, [("sql", 0.6, 0.7)]⟩,
         ⟨"experience", 2, [("sql", 0.8, 0.85)]⟩]).lookup "sql").map
      AggRecord.proficiency = some 0.83 ∧
    (0.83 : ℚ) ≠ (0.6 * 1.0 + 0.8 * 2.0) / 3.0 + 0.10 ∧
    (0.83 : ℚ) ≠ 0.833 := by
  refine ⟨by with_unfolding_all decide, by norm_num, by norm_num⟩

/-- Claim C3 (amended): the aggregated proficiency stored for a skill is the
weighted average `Σ(p×w)/Σ(w)` (weights experience 2.0, project 1.5, resume
1.3, certification 1.2, course 1.0, unknown 1.0) plus the frequency bonus
`min(0.05 × count, 0.15)`, clamped to 1.0 and **then rounded to 2 decimals**;
the example aggregates to `0.83`. -/
theorem aggregate_weighted_formula (sources : List SkillSource) (sk : String) (obs : List Obs)
    (hobs : (collectObs sources).lookup sk = some obs) :
    (aggregate_skills sources).lookup sk = some (aggregateEntry obs) ∧
    (aggregateEntry obs).proficiency =
      round2 (min
        ((obs.map (fun o => o.proficiency * specSourceWeight o.sourceType)).sum /
          (obs.map (fun o => specSourceWeight o.sourceType)).sum +
          min ((obs.length : ℚ) * 0.05) 0.15) 1.0) := by
  constructor
  · rw [aggregate_skills, lookup_map_aggregateEntry, hobs]
    rfl
  · have h1 : obs.map (fun o => o.proficiency * specSourceWeight o.sourceType) =
        obs.map (fun o => o.proficiency * source_weights_get o.sourceType) :=
      List.map_congr_left (fun o _ => by rw [specSourceWeight_eq])
    have h2 : obs.map (fun o => specSourceWeight o.sourceType) =
        obs.map (fun o => source_weights_get o.sourceType) :=
      List.map_congr_left (fun o _ => specSourceWeight_eq o.sourceType)
    rw [h1, h2, aggregateEntry]

/-- Witness for C3 (amended), instantiated at the spec's own example. -/
theorem aggregate_weighted_formula_witness :
    (aggregate_skills sqlExampleSources).lookup "sql" = some (aggregateEntry sqlExampleObs) ∧
    (aggregateEntry sqlExampleObs).proficiency =
      round2 (min
        ((sqlExampleObs.map (fun o => o.proficiency * specSourceWeight o.sourceType)).sum /
          (sqlExampleObs.map (fun o => specSourceWeight o.sourceType)).sum +
          min ((sqlExampleObs.length : ℚ) * 0.05) 0.15) 1.0) :=
  aggregate_weighted_formula sqlExampleSources "sql" sqlExampleObs
    (by with_unfolding_all decide)

/-! ## Claim C9: adding an experience observation -/
/-- Counterexample to C9 as stated: `sql` known from one course at the
course cap `0.70` (grade A, Coursera, "Advanced Databases" → `(0.70, 0.85)`)
aggregates to `0.75`; adding one experience observation that the experience
estimator really produces (`junior` title + `internship` → `(0.45, 0.80)`)
drags the weighted average down: the aggregate drops to `0.63 < 0.75`. -/
theorem aggregate_experience_cex :
    calculate_proficiency_from_course "sql" ⟨"A", "Coursera", "Advanced Databases", ""⟩ =
      (0.70, 0.85) ∧
    calculate_proficiency_from_experience "sql" ⟨"Junior Developer", "", "Internship"⟩ =
      (0.45, 0.80) ∧
    ((aggregate_skills [⟨"course", 1, [("sql", 0.70, 0.85)]⟩]).lookup "sql").map
      AggRecord.proficiency = some 0.75 ∧
    ((aggregate_skills
        [⟨"course", 1, [("sql", 0.70, 0.85)]⟩,
         ⟨"experience", 2, [("sql", 0.45, 0.80)]⟩]).lookup "sql").map
      AggRecord.proficiency = some 0.63 ∧
    (0.63 : ℚ) < 0.75 := by
  refine ⟨by with_unfolding_all decide, by with_unfolding_all decide,
    by with_unfolding_all decide, by with_unfolding_all decide, by norm_num⟩

/-- Claim C9 (amended): for a skill whose collected observations all come
from `course` sources, appending one `experience` observation whose
proficiency is **at least the skill's current weighted-average proficiency**
never decreases the aggregated proficiency.  (Unconditionally the claim is
false: an experience observation below the current average lowers the
weighted mean — see the counterexample.) -/
theorem aggregate_experience_monotone (srcs : List SkillSource) (sk : String) (obs : List Obs)
    (p c : ℚ) (i : Int)
    (hobs : (collectObs srcs).lookup sk = some obs)
    (hcourse : ∀ o ∈ obs, o.sourceType = "course")
    (hne : obs ≠ [])
    (hge : (obs.map (fun o => o.proficiency * source_weights_get o.sourceType)).sum /
      (obs.map (fun o => source_weights_get o.sourceType)).sum ≤ p) :
    ((aggregate_skills srcs).lookup sk).map AggRecord.proficiency =
      some (aggregateEntry obs).proficiency ∧
    ((aggregate_skills (srcs ++ [⟨"experience", i, [(sk, p, c)]⟩])).lookup sk).map
      AggRecord.proficiency =
      some (aggregateEntry
        (obs ++ [⟨p, c, "experience" ++ ":" ++ toString i, "experience"⟩])).proficiency ∧
    (aggregateEntry obs).proficiency ≤
      (aggregateEntry
        (obs ++ [⟨p, c, "experience" ++ ":" ++ toString i, "experience"⟩])).proficiency := by
  have hwcourse : source_weights_get "course" = 1 := by with_unfolding_all decide
  have hwexp : source_weights_get "experience" = 2 := by with_unfolding_all decide
  have hn : 0 < obs.length := List.length_pos.mpr hne
  have hna : (0 : ℚ) < (obs.length : ℚ) := by exact_mod_cast hn
  set e : Obs := ⟨p, c, "experience" ++ ":" ++ toString i, "experience"⟩ with he
  -- sums over the old observation list
  have hwts : obs.map (fun o => source_weights_get o.sourceType) =
      obs.map (fun _ => (1 : ℚ)) :=
    List.map_congr_left (fun o ho => by rw [hcourse o ho, hwcourse])
  have hsumw : (obs.map (fun o => source_weights_get o.sourceType)).sum = (obs.length : ℚ) := by
    rw [hwts, List.map_const', List.sum_replicate, nsmul_eq_mul, mul_one]
  have hsump : (obs.map (fun o => o.proficiency * source_weights_get o.sourceType)).sum =
      (obs.map (fun o => o.proficiency)).sum := by
    have : obs.map (fun o => o.proficiency * source_weights_get o.sourceType) =
        obs.map (fun o => o.proficiency) :=
      List.map_congr_left (fun o ho => by rw [hcourse o ho, hwcourse, mul_one])
    rw [this]
  -- sums over the extended observation list
  have hsumw' : ((obs ++ [e]).map (fun o => source_weights_get o.sourceType)).sum =
      (obs.length : ℚ) + 2 := by
    rw [List.map_append, List.sum_append, hsumw]
    simp [he, hwexp]
  have hsump' : ((obs ++ [e]).map (fun o => o.proficiency * source_weights_get o.sourceType)).sum =
      (obs.map (fun o => o.proficiency)).sum + p * 2 := by
    rw [List.map_append, List.sum_append, hsump]
    simp [he, hwexp]
  have hlen' : (((obs ++ [e]).length : ℚ)) = (obs.length : ℚ) + 1 := by
    push_cast [List.length_append]
    norm_num
  -- the core monotonicity of the pre-rounding score
  set S : ℚ := (obs.map (fun o => o.proficiency)).sum with hS
  have hSp : S / (obs.length : ℚ) ≤ p := by
    rw [hsumw, hsump] at hge
    exact hge
  have hSn : S ≤ p * (obs.length : ℚ) := (div_le_iff hna).mp hSp
  have havg : S / (obs.length : ℚ) ≤ (S + p * 2) / ((obs.length : ℚ) + 2) := by
    rw [div_le_div_iff hna (by linarith)]
    nlinarith [hSn]
  have hboost : min ((obs.length : ℚ) * 0.05) 0.15 ≤
      min (((obs.length : ℚ) + 1) * 0.05) 0.15 :=
    min_le_min (by linarith) le_rfl
  refine ⟨?_, ?_, ?_⟩
  · rw [aggregate_skills, lookup_map_aggregateEntry, hobs]
    rfl
  · rw [aggregate_skills, collectObs_append_single, lookup_map_aggregateEntry,
      lookup_insertObs_some e hobs]
    rfl
  · show (aggregateEntry obs).proficiency ≤ (aggregateEntry (obs ++ [e])).proficiency
    unfold aggregateEntry
    simp only
    apply round2_mono
    apply min_le_min _ le_rfl
    rw [hsumw, hsump, hsumw', hsump', hlen']
    exact add_le_add havg hboost

/-- Witness for C9 (amended): adding an experience observation at `0.7 ≥ 0.6`
does not decrease the aggregate. -/
theorem aggregate_experience_monotone_witness :
    ((aggregate_skills monoExampleSources).lookup "sql").map AggRecord.proficiency =
      some (aggregateEntry monoExampleObs).proficiency ∧
    ((aggregate_skills
        (monoExampleSources ++ [⟨"experience", 2, [("sql", 0.7, 0.8)]⟩])).lookup "sql").map
      AggRecord.proficiency =
      some (aggregateEntry
        (monoExampleObs ++
          [⟨0.7, 0.8, "experience" ++ ":" ++ toString (2 : Int), "experience"⟩])).proficiency ∧
    (aggregateEntry monoExampleObs).proficiency ≤
      (aggregateEntry
        (monoExampleObs ++
          [⟨0.7, 0.8, "experience" ++ ":" ++ toString (2 : Int), "experience"⟩])).proficiency :=
  aggregate_experience_monotone monoExampleSources "sql" monoExampleObs 0.7 0.8 2
    (by with_unfolding_all decide) (by with_unfolding_all decide)
    (by simp [monoExampleObs]) (by with_unfolding_all decide)

/-! ## Claims C5–C7 -/
/-- Counterexample to C5 as stated: `python` is a single-word taxonomy
skill, the cleaned text `pythn` consists of the single word `pythn`, and the
similarity ratio is `10/11 ≈ 0.909 ≥ 0.88` — yet the matcher does not return
`python`: no fuzzy-matching step exists in `extract_skills_from_text`
(`SequenceMatcher` is imported but never used). -/
theorem fuzzy_match_cex :
    "python" ∈ skills_list ∧
    isSingleWord "python" = true ∧
    textWords (clean_text (lowerStr "pythn")) = ["pythn"] ∧
    simRatio "python" "pythn" ≥ 0.88 ∧
    "python" ∉ extract_skills_from_text "pythn" := by
  refine ⟨by decide, by decide, by decide, by with_unfolding_all decide, by decide⟩

/-- Claim C5 (amended): the matcher applies **no** fuzzy matching: a
single-character typo of a single-word skill that matches no other
extraction pattern yields no skills at all (`extract('pythn') = []`) even
though its similarity ratio to `python` clears the spec's 0.88 threshold;
a fortiori a word sharing only 2 of 6 characters is never fuzzy-matched. -/
theorem fuzzy_match_absent :
    extract_skills_from_text "pythn" = [] ∧ simRatio "python" "pythn" ≥ 0.88 := by
  exact ⟨by decide, by with_unfolding_all decide⟩

/-- Claim C6 (the code bug): extracting from text equal to the canonical
skill string does **not** return that skill for `c++` (the compiled pattern
`\bc\+\+\b` requires a word character after the trailing `+`, so only `c` is
found) nor for any space-containing skill such as `machine learning` (the
chained `str.replace` calls corrupt the separator class inserted for
spaces to `[\s[\s\-_.]?_.]?`, which demands a literal `_`). -/
theorem taxonomy_roundtrip_bug :
    "c++" ∈ skills_list ∧
    extract_skills_from_text "c++" = ["c"] ∧
    "c++" ∉ extract_skills_from_text "c++" ∧
    "machine learning" ∈ skills_list ∧
    extract_skills_from_text "machine learning" = [] := by
  refine ⟨by decide, by decide, by decide, by decide, by decide⟩

/-- Counterexample to C7 as stated: `python` is 6 characters — far below the
~50-character threshold — yet `extract_skills_from_text` happily extracts
`python`; the pattern matcher has no length guard at all. -/
theorem short_text_cex :
    ("python" : String).length < 50 ∧
    extract_skills_from_text "python" = ["python"] ∧
    extract_skills_from_text "python" ≠ [] := by
  refine ⟨by decide, by decide, by decide⟩

/-- Claim C7 (amended): only the LLM-based extractor enforces the 50-character
minimum — for every stripped text shorter than 50 characters it returns `[]`
(whatever the LLM would have answered, and whether or not a client is
configured); the pattern-based extractor has no threshold (it returns `[]`
for empty text but extracts from arbitrarily short text).  Both are total
functions — neither raises. -/
theorem short_text_llm_guard :
    (∀ (client : Bool) (resp : String → List String) (t : String),
      (stripStr t).length < 50 → llm_extract_skills_from_resume client resp t = []) ∧
    extract_skills_from_text "" = [] := by
  constructor
  · intro client resp t h
    unfold llm_extract_skills_from_resume
    cases client
    · rfl
    · have hor : (t = "" ∨ (stripStr t).length < 50) := Or.inr h
      simp only [Bool.not_true, Bool.false_eq_true, if_false, if_pos hor]
  · decide

/-- Witness for C7 (amended): a 16-character resume is rejected by the LLM
guard even with a client and a non-trivial response. -/
theorem short_text_llm_guard_witness :
    (stripStr "Python developer").length < 50 ∧
    llm_extract_skills_from_resume true (fun _ => ["python"]) "Python developer" = [] :=
  ⟨by decide, short_text_llm_guard.1 true (fun _ => ["python"]) "Python developer" (by decide)⟩
